import Mathlib

/-!
Verification development for the auto-docs-action repository.

Two components are embedded, following the source:
* `GitModel` — the commit-range resolution logic of
  `auto_docs_action/git_helpers.py` and `auto_docs_action/git_operations.py`.
  The read-only git queries issued through `cmd_output` are modelled by a
  `GitOracle`: each query either returns the stdout text of the command
  (`Except.ok`) or fails with a `CalledProcessError` (`Except.error ()`).
* `AstValidator` — the AST-based validation of `auto_docs_action/ast_validator.py`.
  A faithful fragment of the CPython `ast` node language is embedded as
  mutually inductive types (`Stmt`/`StmtList`, `Expr`/`ExprList`), and the
  docstring-stripping, structure comparison and docstring diffing of the
  source are translated over it.  `ast.parse` itself is an external C
  component; it enters the model as a deterministic parsing function
  `String → ParseResult` supplied to `validate_changes`, exactly the point at
  which the source consumes it.
-/

/-- Executable model of Python `str.strip()`: drop leading and trailing
whitespace.  Implemented over the character list so that it reduces in the
kernel (the standard library `String.trim` is written with position-based
loops compiled by well-founded recursion, which concrete evaluation cannot
unfold). -/
def pyStrip (s : String) : String :=
  ⟨((s.data.dropWhile Char.isWhitespace).reverse.dropWhile Char.isWhitespace).reverse⟩

/-- Digit-sequence accumulator for `pyInt?`. -/
def digitsToNatAux : List Char → Nat → Option Nat
  | [], acc => some acc
  | c :: rest, acc =>
    if c.isDigit then digitsToNatAux rest (acc * 10 + (c.toNat - '0'.toNat)) else none

/-- Executable model of Python `int(...)` on an already-stripped string: an
optional sign followed by at least one decimal digit; anything else raises
`ValueError`, modelled as `none`. -/
def pyInt? (s : String) : Option Int :=
  match s.data with
  | [] => none
  | '-' :: rest =>
    if rest.isEmpty then none else (digitsToNatAux rest 0).map (fun n => -(n : Int))
  | '+' :: rest =>
    if rest.isEmpty then none else (digitsToNatAux rest 0).map (fun n => (n : Int))
  | l => (digitsToNatAux l 0).map (fun n => (n : Int))

/-- Helper for `pySplitLines`. -/
def splitLinesAux : List Char → List Char → List String
  | [], acc => [⟨acc.reverse⟩]
  | c :: rest, acc =>
    if c = '\n' then ⟨acc.reverse⟩ :: splitLinesAux rest []
    else splitLinesAux rest (c :: acc)

/-- Executable model of Python `str.split("\n")`. -/
def pySplitLines (s : String) : List String :=
  splitLinesAux s.data []

/-- Executable model of Python `str.startswith(pre)`. -/
def pyStartsWith (pre s : String) : Bool :=
  pre.data.isPrefixOf s.data

/-- Executable model of the Python slice `s[n:]`. -/
def pyDrop (n : Nat) (s : String) : String :=
  ⟨s.data.drop n⟩

/-- Decidable equality for `Except`, used to evaluate the model on concrete
oracles. -/
instance {ε α : Type} [DecidableEq ε] [DecidableEq α] : DecidableEq (Except ε α) := fun a b =>
  match a, b with
  | .ok x, .ok y =>
    if h : x = y then isTrue (by rw [h]) else isFalse (fun hh => h (Except.ok.inj hh))
  | .error x, .error y =>
    if h : x = y then isTrue (by rw [h]) else isFalse (fun hh => h (Except.error.inj hh))
  | .ok _, .error _ => isFalse (fun hh => Except.noConfusion hh)
  | .error _, .ok _ => isFalse (fun hh => Except.noConfusion hh)

namespace GitModel

/-- Modelled from the spec: the module `auto_docs_action/constants.py` is not
under `src/` (only its importers are).  The spec describes the event kind
"pull-request"; GitHub delivers it as the event name `pull_request`, which
`GitHubConfig.is_pull_request` compares against. -/
def EVENT_PULL_REQUEST : String := "pull_request"

/-- Modelled from the spec: `constants.py` is not under `src/`.  The spec calls
this "a very large sentinel" that marks a commit as "maximally distant" when
`git rev-list --count` fails, so that it loses every smaller-distance
comparison against realistically countable commits. -/
def LARGE_COMMIT_COUNT_FALLBACK : Int := 999999999

/-- Modelled from the spec: `constants.py` is not under `src/`.  The spec says
the last automation commit is searched "via several equivalent author-string
matchers, since exact bot-identity string quoting varies by git version",
tried in order with the first non-empty result winning.  The exact pattern
strings do not affect any claim; the commit-creation code in
`git_operations.py` fixes the identity `github-actions[bot]`. -/
def GITHUB_ACTIONS_BOT_PATTERNS : List String :=
  ["github-actions\\[bot\\]", "github-actions[bot]", "github-actions", "41898282+github-actions[bot]@users.noreply.github.com"]

/-- `CommitInfo` dataclass of `git_helpers.py`.  `distance_to_head` is an
`int` in the source (`_count_commits_to_head` returns `int`). -/
structure CommitInfo where
  sha : String
  distance_to_head : Int
deriving DecidableEq

/-- `DiffRange` dataclass of `git_helpers.py`. -/
structure DiffRange where
  from_commit : String
  to_commit : String
deriving DecidableEq

/-- `DiffRange.has_diff` property. -/
def DiffRange.has_diff (d : DiffRange) : Bool := d.from_commit != d.to_commit

/-- The fields of `GitHubConfig` (`config.py`) that the diff-range logic
reads: `event_name` and `base_ref`, each `str | None` from the environment. -/
structure GitHubConfig where
  event_name : Option String
  base_ref : Option String
deriving DecidableEq

/-- `GitHubConfig.is_pull_request`: `self.event_name == EVENT_PULL_REQUEST`. -/
def GitHubConfig.is_pull_request (c : GitHubConfig) : Bool :=
  c.event_name == some EVENT_PULL_REQUEST

/-- `GitHubConfig.has_base_ref`: `self.base_ref is not None and self.base_ref.strip() != ""`. -/
def GitHubConfig.has_base_ref (c : GitHubConfig) : Bool :=
  match c.base_ref with
  | none => false
  | some r => pyStrip r != ""

/-- The read-only git queries the resolver issues through `cmd_output`.
Each returns stdout on success, or `Except.error ()` when `cmd_output`
raises `CalledProcessError` (non-zero exit with `check=True`, timeout, or an
unexpected subprocess failure). -/
structure GitOracle where
  /-- `git log --author=<pattern> --format=%H -1` -/
  logAuthor : String → Except Unit String
  /-- `git merge-base HEAD <target_ref>` -/
  mergeBase : String → Except Unit String
  /-- `git rev-list --boundary HEAD...origin/<base_ref>^` with `check=False`
  (it can still raise on timeout or unexpected failure) -/
  revListBoundary : String → Except Unit String
  /-- `git rev-list --max-parents=0 HEAD` -/
  revListRoot : Except Unit String
  /-- `git rev-list --max-count=1 --reverse HEAD` -/
  revListReverse : Except Unit String
  /-- `git rev-parse HEAD` -/
  revParseHead : Except Unit String
  /-- `git rev-list --count <commit>..HEAD` -/
  countToHead : String → Except Unit String

/-- `GitCommitFinder._count_commits_to_head`: parse the count from stdout;
on `CalledProcessError` or `ValueError` return `LARGE_COMMIT_COUNT_FALLBACK`. -/
def _count_commits_to_head (o : GitOracle) (commit : String) : Int :=
  match o.countToHead commit with
  | .ok out =>
    match pyInt? (pyStrip out) with
    | some n => n
    | none => LARGE_COMMIT_COUNT_FALLBACK
  | .error _ => LARGE_COMMIT_COUNT_FALLBACK

/-- The pattern loop of `GitCommitFinder.find_last_bot_commit`: try each
author pattern in order; a failed or empty `git log` moves to the next
pattern; the first non-empty sha wins. -/
def findBotLoop (o : GitOracle) : List String → Option CommitInfo
  | [] => none
  | p :: rest =>
    match o.logAuthor p with
    | .error _ => findBotLoop o rest
    | .ok out =>
      let commit_sha := pyStrip out
      if commit_sha != "" then
        some ⟨commit_sha, _count_commits_to_head o commit_sha⟩
      else
        findBotLoop o rest

/-- `GitCommitFinder.find_last_bot_commit`. -/
def find_last_bot_commit (o : GitOracle) : Option CommitInfo :=
  findBotLoop o GITHUB_ACTIONS_BOT_PATTERNS

/-- The target-ref loop of `GitCommitFinder.find_pr_base_commit`: try
`git merge-base HEAD <ref>` for each ref format, first success wins (the
source takes the stripped stdout without checking it for emptiness). -/
def tryMergeBaseRefs (o : GitOracle) : List String → Option CommitInfo
  | [] => none
  | r :: rest =>
    match o.mergeBase r with
    | .ok out =>
      let merge_base := pyStrip out
      some ⟨merge_base, _count_commits_to_head o merge_base⟩
    | .error _ => tryMergeBaseRefs o rest

/-- `GitCommitFinder._try_boundary_commit`: on non-empty boundary output,
take the first line starting with `-`, strip that marker, and build a
`CommitInfo`; otherwise (or on error) return `None`. -/
def _try_boundary_commit (o : GitOracle) (base_ref : String) : Option CommitInfo :=
  match o.revListBoundary base_ref with
  | .error _ => none
  | .ok out =>
    if pyStrip out != "" then
      match (pySplitLines (pyStrip out)).find? (fun l => pyStartsWith "-" l) with
      | some line =>
        let boundary_commit := pyDrop 1 line
        some ⟨boundary_commit, _count_commits_to_head o boundary_commit⟩
      | none => none
    else none

/-- Second fallback of `find_oldest_available_commit`: `git rev-parse HEAD`.
This call is not wrapped in a `try`, so its failure propagates
(`Except.error`). -/
def oldestHeadFallback (o : GitOracle) : Except Unit CommitInfo :=
  match o.revParseHead with
  | .ok out => .ok ⟨pyStrip out, 0⟩
  | .error e => .error e

/-- First fallback of `find_oldest_available_commit`:
`git rev-list --max-count=1 --reverse HEAD`; on failure or empty output fall
through to the `rev-parse HEAD` fallback. -/
def oldestReverseFallback (o : GitOracle) : Except Unit CommitInfo :=
  match o.revListReverse with
  | .ok out =>
    let oldest_commit := pyStrip out
    if oldest_commit != "" then
      .ok ⟨oldest_commit, _count_commits_to_head o oldest_commit⟩
    else
      oldestHeadFallback o
  | .error _ => oldestHeadFallback o

/-- `GitCommitFinder.find_oldest_available_commit`: root commit via
`rev-list --max-parents=0`, else the shallow-checkout fallback, else
`rev-parse HEAD` (whose failure is the one that escapes this function). -/
def find_oldest_available_commit (o : GitOracle) : Except Unit CommitInfo :=
  match o.revListRoot with
  | .ok out =>
    let first_commit := pyStrip out
    if first_commit != "" then
      .ok ⟨first_commit, _count_commits_to_head o first_commit⟩
    else
      oldestReverseFallback o
  | .error _ => oldestReverseFallback o

/-- `GitCommitFinder.find_pr_base_commit`: guarded by PR context and base
ref; merge-base with `origin/<base>` then `<base>`; then the boundary-commit
approach; then the oldest available commit (whose failure propagates, since
that last call is outside any `try` in this function). -/
def find_pr_base_commit (o : GitOracle) (cfg : GitHubConfig) : Except Unit (Option CommitInfo) :=
  if !cfg.is_pull_request || !cfg.has_base_ref then .ok none
  else
    match cfg.base_ref with
    | none => .ok none
    | some base_ref =>
      if base_ref == "" then .ok none
      else
        match tryMergeBaseRefs o ["origin/" ++ base_ref, base_ref] with
        | some ci => .ok (some ci)
        | none =>
          match _try_boundary_commit o base_ref with
          | some ci => .ok (some ci)
          | none =>
            match find_oldest_available_commit o with
            | .ok oldest => .ok (some oldest)
            | .error e => .error e

/-- `DiffRangeDeterminer._determine_pr_range`: when both the PR base and the
last automation commit are found, pick the one with fewer commits to HEAD,
ties favoring the PR base; with one found, use it; with neither, use the
oldest available commit.  Exceptions from the finders propagate. -/
def _determine_pr_range (o : GitOracle) (cfg : GitHubConfig) : Except Unit DiffRange :=
  match find_pr_base_commit o cfg with
  | .error e => .error e
  | .ok pr_base =>
    match pr_base, find_last_bot_commit o with
    | some pb, some lb =>
      if pb.distance_to_head ≤ lb.distance_to_head then
        .ok ⟨pb.sha, "HEAD"⟩
      else
        .ok ⟨lb.sha, "HEAD"⟩
    | some pb, none => .ok ⟨pb.sha, "HEAD"⟩
    | none, some lb => .ok ⟨lb.sha, "HEAD"⟩
    | none, none =>
      match find_oldest_available_commit o with
      | .ok oldest => .ok ⟨oldest.sha, "HEAD"⟩
      | .error e => .error e

/-- `DiffRangeDeterminer._determine_push_range`: when a last automation
commit exists, pick the smaller-distance one of it and the oldest available
commit, ties favoring the oldest available; otherwise the oldest available.
Exceptions from `find_oldest_available_commit` propagate. -/
def _determine_push_range (o : GitOracle) : Except Unit DiffRange :=
  match find_oldest_available_commit o with
  | .error e => .error e
  | .ok oldest_available =>
    match find_last_bot_commit o with
    | some lb =>
      if oldest_available.distance_to_head ≤ lb.distance_to_head then
        .ok ⟨oldest_available.sha, "HEAD"⟩
      else
        .ok ⟨lb.sha, "HEAD"⟩
    | none => .ok ⟨oldest_available.sha, "HEAD"⟩

/-- `DiffRangeDeterminer.determine_range`. -/
def determine_range (o : GitOracle) (cfg : GitHubConfig) : Except Unit DiffRange :=
  if cfg.is_pull_request then _determine_pr_range o cfg else _determine_push_range o

/-- `git_operations.determine_diff_commits`: the whole determination is
wrapped in `try/except Exception`; any propagated error is replaced by the
safe fallback pair `("HEAD", "HEAD")`, which downstream means no diff. -/
def determine_diff_commits (o : GitOracle) (cfg : GitHubConfig) : String × String :=
  match determine_range o cfg with
  | .ok diff_range => (diff_range.from_commit, diff_range.to_commit)
  | .error _ => ("HEAD", "HEAD")

/-- An oracle on which every underlying git query fails. -/
def failAllOracle : GitOracle where
  logAuthor := fun _ => .error ()
  mergeBase := fun _ => .error ()
  revListBoundary := fun _ => .error ()
  revListRoot := .error ()
  revListReverse := .error ()
  revParseHead := .error ()
  countToHead := fun _ => .error ()

end GitModel

namespace AstValidator

/-- Constant values carried by `ast.Constant`; the validator only ever
distinguishes string constants (`isinstance(value.value, str)`) from the
rest. -/
inductive PyConst where
  | str (s : String)
  | intLit (n : Int)
  | boolLit (b : Bool)
  | noneLit
  | ellipsisLit
deriving DecidableEq

mutual
/-- Fragment of CPython expression nodes.  Expressions never contain
statements (lambda bodies are expressions), so they are independent of
`Stmt`; the validator treats them as opaque structure except for
string-constant detection. -/
inductive Expr where
  | constant (value : PyConst)
  | name (id : String)
  | binOp (left : Expr) (op : String) (right : Expr)
  | call (func : Expr) (args : ExprList)
  | attr (value : Expr) (field : String)
  | lam (params : List String) (body : Expr)
deriving DecidableEq

/-- Argument lists of `call` nodes (a list type mutual with `Expr`). -/
inductive ExprList where
  | nil
  | cons (e : Expr) (l : ExprList)
deriving DecidableEq
end

mutual
/-- Fragment of CPython statement nodes: the docstring-bearing scopes
(`FunctionDef`, `AsyncFunctionDef`, `ClassDef`), the non-scope compound
statements the validator must recurse through (`If`, `While`, `For`, `With`,
`Try`, `ExceptHandler`), and representative simple statements. -/
inductive Stmt where
  | exprStmt (value : Expr)
  | assign (targets : List Expr) (value : Expr)
  | ret (value : Option Expr)
  | passStmt
  | importStmt (names : List String)
  | functionDef (name : String) (args : List String) (body : StmtList) (decorator_list : List Expr)
  | asyncFunctionDef (name : String) (args : List String) (body : StmtList) (decorator_list : List Expr)
  | classDef (name : String) (bases : List Expr) (body : StmtList) (decorator_list : List Expr)
  | ifStmt (test : Expr) (body : StmtList) (orelse : StmtList)
  | whileStmt (test : Expr) (body : StmtList) (orelse : StmtList)
  | forStmt (target : Expr) (iter : Expr) (body : StmtList) (orelse : StmtList)
  | withStmt (items : List Expr) (body : StmtList)
  | tryStmt (body : StmtList) (handlers : StmtList) (orelse : StmtList) (finalbody : StmtList)
  | exceptHandler (typ : Option Expr) (name : Option String) (body : StmtList)
deriving DecidableEq

/-- Statement sequences (the `body`, `orelse`, ... fields), as a list type
mutual with `Stmt`. -/
inductive StmtList where
  | nil
  | cons (s : Stmt) (l : StmtList)
deriving DecidableEq
end

/-- `ast.Module`: the whole-file scope. -/
structure PyModule where
  body : StmtList
deriving DecidableEq

/-- Concatenation of statement sequences. -/
def StmtList.append : StmtList → StmtList → StmtList
  | .nil, b => b
  | .cons s t, b => .cons s (t.append b)

instance : Append StmtList := ⟨StmtList.append⟩

/-- Build a statement sequence from a Lean list (used for concrete inputs). -/
def StmtList.ofList : List Stmt → StmtList
  | [] => .nil
  | s :: t => .cons s (StmtList.ofList t)

/-- A string-literal expression statement, i.e. a statement of shape
`Expr(Constant(str))` — the only shape `_get_docstring` and
`_remove_docstrings_recursive` recognize as documentation. -/
def strStmt (s : String) : Stmt :=
  .exprStmt (.constant (.str s))

/-- The string carried by a statement of shape `Expr(Constant(str))`, if it
has that shape (`isinstance(stmt, ast.Expr) and isinstance(stmt.value,
ast.Constant) and isinstance(stmt.value.value, str)`). -/
def docstringOfStmt : Stmt → Option String
  | .exprStmt (.constant (.str s)) => some s
  | _ => none

/-- Whether a statement is a string-literal expression statement. -/
def isDocExpr (s : Stmt) : Bool :=
  (docstringOfStmt s).isSome

/-- The docstring of a scope body: the string of its first statement when
that statement is a string literal, else `None`.  This is the body check
shared by `_get_docstring` and `_remove_docstrings_recursive`. -/
def bodyDocstring : StmtList → Option String
  | .cons s _ => docstringOfStmt s
  | .nil => none

mutual
/-- `_remove_docstrings_recursive` on a single statement: the scope nodes
(`FunctionDef`, `AsyncFunctionDef`, `ClassDef`) have their body processed as
a scope (leading string literal removed); every other compound statement
only has its nested sequences processed recursively; simple statements are
unchanged.  The source mutates a deep copy in place; here the stripped tree
is returned. -/
def stripStmt : Stmt → Stmt
  | .functionDef n a b d => .functionDef n a (stripScopeBody b) d
  | .asyncFunctionDef n a b d => .asyncFunctionDef n a (stripScopeBody b) d
  | .classDef n bs b d => .classDef n bs (stripScopeBody b) d
  | .ifStmt t b e => .ifStmt t (stripList b) (stripList e)
  | .whileStmt t b e => .whileStmt t (stripList b) (stripList e)
  | .forStmt tg it b e => .forStmt tg it (stripList b) (stripList e)
  | .withStmt it b => .withStmt it (stripList b)
  | .tryStmt b h e f => .tryStmt (stripList b) (stripList h) (stripList e) (stripList f)
  | .exceptHandler t n b => .exceptHandler t n (stripList b)
  | .exprStmt v => .exprStmt v
  | .assign tg v => .assign tg v
  | .ret v => .ret v
  | .passStmt => .passStmt
  | .importStmt ns => .importStmt ns

/-- Processing of the body of a node that can legally carry a docstring
(`Module`, `FunctionDef`, `AsyncFunctionDef`, `ClassDef`): if the first
statement is a string literal it is removed (`node.body = node.body[1:]`),
and the remaining child statements are processed recursively. -/
def stripScopeBody : StmtList → StmtList
  | .nil => .nil
  | .cons s rest =>
    if isDocExpr s then stripList rest
    else .cons (stripStmt s) (stripList rest)

/-- Recursive processing of a statement sequence that is not a scope body:
no statement is removed, each is processed in place. -/
def stripList : StmtList → StmtList
  | .nil => .nil
  | .cons s rest => .cons (stripStmt s) (stripList rest)
end

/-- `_extract_code_structure`: deep-copy the tree, remove docstrings from
every scope recursively, serialize.  `ast.dump` (without attributes) is a
canonical injective rendering of the node tree, so the serialized structure
is modelled by the stripped tree itself. -/
def _extract_code_structure (m : PyModule) : PyModule :=
  ⟨stripScopeBody m.body⟩

/-- `_structures_match`: string comparison of the two `ast.dump` renderings,
i.e. structural equality of the stripped trees. -/
def _structures_match (orig_structure curr_structure : PyModule) : Bool :=
  orig_structure == curr_structure

/-- Pointwise merge of two level-indexed node lists (helper for the
breadth-first `ast.walk` order). -/
def mergeLevels : List (List Stmt) → List (List Stmt) → List (List Stmt)
  | [], ys => ys
  | xs, [] => xs
  | x :: xs, y :: ys => (x ++ y) :: mergeLevels xs ys

mutual
/-- All statement nodes of the subtree rooted at a statement, grouped by
depth: the node itself, then its nested statement sequences one level
down, merged level by level. -/
def stmtLevels : Stmt → List (List Stmt)
  | .functionDef n a b d => [.functionDef n a b d] :: bodyLevels b
  | .asyncFunctionDef n a b d => [.asyncFunctionDef n a b d] :: bodyLevels b
  | .classDef n bs b d => [.classDef n bs b d] :: bodyLevels b
  | .ifStmt t b e => [.ifStmt t b e] :: mergeLevels (bodyLevels b) (bodyLevels e)
  | .whileStmt t b e => [.whileStmt t b e] :: mergeLevels (bodyLevels b) (bodyLevels e)
  | .forStmt tg it b e => [.forStmt tg it b e] :: mergeLevels (bodyLevels b) (bodyLevels e)
  | .withStmt it b => [.withStmt it b] :: bodyLevels b
  | .tryStmt b h e f =>
    [.tryStmt b h e f] ::
      mergeLevels (bodyLevels b) (mergeLevels (bodyLevels h) (mergeLevels (bodyLevels e) (bodyLevels f)))
  | .exceptHandler t n b => [.exceptHandler t n b] :: bodyLevels b
  | s => [[s]]

/-- Level-grouped statement nodes of a statement sequence. -/
def bodyLevels : StmtList → List (List Stmt)
  | .nil => []
  | .cons s rest => mergeLevels (stmtLevels s) (bodyLevels rest)
end

/-- The statement nodes yielded by `ast.walk(module)`: breadth-first, i.e.
level order, document order within a level.  (`ast.walk` also yields the
`Module` node itself and expression nodes; the callers in
`_compare_docstrings` filter by `isinstance` for definition nodes, and
expressions contain no definitions, so only statement nodes are relevant.) -/
def walkStmts (m : PyModule) : List Stmt :=
  (bodyLevels m.body).flatten

/-- `isinstance(node, (ast.FunctionDef, ast.AsyncFunctionDef))`. -/
def isFunctionNode : Stmt → Bool
  | .functionDef .. => true
  | .asyncFunctionDef .. => true
  | _ => false

/-- `isinstance(node, ast.ClassDef)`. -/
def isClassNode : Stmt → Bool
  | .classDef .. => true
  | _ => false

/-- The `name` attribute of a definition node (`f.name` / `c.name`). -/
def defName : Stmt → String
  | .functionDef n _ _ _ => n
  | .asyncFunctionDef n _ _ _ => n
  | .classDef n _ _ _ => n
  | _ => ""

/-- The `body` attribute of a statement, for the node kinds that have one
(the `hasattr(node, "body")` probe of `_get_docstring`). -/
def nodeBody : Stmt → Option StmtList
  | .functionDef _ _ b _ => some b
  | .asyncFunctionDef _ _ b _ => some b
  | .classDef _ _ b _ => some b
  | .ifStmt _ b _ => some b
  | .whileStmt _ b _ => some b
  | .forStmt _ _ b _ => some b
  | .withStmt _ b => some b
  | .tryStmt b _ _ _ => some b
  | .exceptHandler _ _ b => some b
  | _ => none

/-- `_get_docstring` on a statement node (or `None`): `None` gives `None`;
otherwise, if the node has a non-empty `body` whose first statement is a
string literal, that string, else `None`. -/
def _get_docstring : Option Stmt → Option String
  | none => none
  | some s =>
    match nodeBody s with
    | some b => bodyDocstring b
    | none => none

/-- `_get_docstring` applied to the `Module` node. -/
def moduleDocstring (m : PyModule) : Option String :=
  bodyDocstring m.body

/-- Python `dict` insertion: an existing key keeps its position and gets the
new value; a new key is appended. -/
def dictUpsert (d : List (String × Stmt)) (k : String) (v : Stmt) : List (String × Stmt) :=
  if d.any (fun p => p.1 == k) then
    d.map (fun p => if p.1 == k then (k, v) else p)
  else
    d ++ [(k, v)]

/-- The dict comprehension `{n.name: n for n in ast.walk(tree) if
isinstance(n, ...)}` over an already-filtered walk list: later duplicates
overwrite earlier values. -/
def buildDict (nodes : List Stmt) : List (String × Stmt) :=
  nodes.foldl (fun d s => dictUpsert d (defName s) s) []

/-- `dict.get`. -/
def dictGet (d : List (String × Stmt)) (k : String) : Option Stmt :=
  (d.find? (fun p => p.1 == k)).map (fun p => p.2)

/-- `dict.keys()` in insertion order. -/
def dictKeys (d : List (String × Stmt)) : List String :=
  d.map (fun p => p.1)

/-- `set(d1.keys()) | set(d2.keys())` as an iteration sequence.  CPython
iterates a set in unspecified hash order; the model fixes the deterministic
order "keys of the first dict, then new keys of the second".  Which names
occur, and the per-name values compared, do not depend on this choice. -/
def keyUnion (k₁ k₂ : List String) : List String :=
  k₁ ++ k₂.filter (fun k => !(k₁.contains k))

/-- One entry of the `docstring_changes` list: the dict
`{"type": ..., "name": ..., "original": ..., "current": ...}`. -/
structure DocChange where
  type : String
  name : String
  original : Option String
  current : Option String
deriving DecidableEq

/-- `_compare_docstrings`: module docstring first, then per-name function
docstrings over the union of the two function-name sets, then per-name class
docstrings; a change is emitted whenever the two sides differ (absence is
`None`, distinct from the empty string). -/
def _compare_docstrings (orig_ast curr_ast : PyModule) : List DocChange :=
  let module_changes :=
    if moduleDocstring orig_ast ≠ moduleDocstring curr_ast then
      [⟨"module", "__module__", moduleDocstring orig_ast, moduleDocstring curr_ast⟩]
    else []
  let orig_functions := buildDict ((walkStmts orig_ast).filter isFunctionNode)
  let curr_functions := buildDict ((walkStmts curr_ast).filter isFunctionNode)
  let function_changes :=
    (keyUnion (dictKeys orig_functions) (dictKeys curr_functions)).filterMap (fun n =>
      let orig_doc := _get_docstring (dictGet orig_functions n)
      let curr_doc := _get_docstring (dictGet curr_functions n)
      if orig_doc ≠ curr_doc then some ⟨"function", n, orig_doc, curr_doc⟩ else none)
  let orig_classes := buildDict ((walkStmts orig_ast).filter isClassNode)
  let curr_classes := buildDict ((walkStmts curr_ast).filter isClassNode)
  let class_changes :=
    (keyUnion (dictKeys orig_classes) (dictKeys curr_classes)).filterMap (fun n =>
      let orig_doc := _get_docstring (dictGet orig_classes n)
      let curr_doc := _get_docstring (dictGet curr_classes n)
      if orig_doc ≠ curr_doc then some ⟨"class", n, orig_doc, curr_doc⟩ else none)
  module_changes ++ function_changes ++ class_changes

/-- `ValidationResult` dataclass. -/
structure ValidationResult where
  passed : Bool
  status : String
  reason : Option String
  docstring_changes : Option (List DocChange)
deriving DecidableEq

/-- Outcome of `ast.parse` on one source text: a module tree, or a
`SyntaxError` with its message. -/
inductive ParseResult where
  | ok (m : PyModule)
  | err (msg : String)

/-- `validate_changes(original_content, current_file_path)`.  The model
receives the deterministic parsing function (`ast.parse`) and the outcome of
`current_file_path.read_text()` (content, or the message of a raised error).
Order follows the source: read the current content, parse the original,
parse the current, compare docstring-stripped structures, then collect
docstring changes.  `SyntaxError` is caught as `syntax_error`; any other
raised error (in the model: a failing read) is caught as
`validation_error`. -/
def validate_changes (parseFn : String → ParseResult) (original_content : String)
    (read_result : Except String String) : ValidationResult :=
  match read_result with
  | .error e => ⟨false, "validation_error", some ("Validation failed: " ++ e), none⟩
  | .ok current_content =>
    match parseFn original_content with
    | .err e => ⟨false, "syntax_error", some ("Modified file has syntax errors: " ++ e), none⟩
    | .ok original_ast =>
      match parseFn current_content with
      | .err e => ⟨false, "syntax_error", some ("Modified file has syntax errors: " ++ e), none⟩
      | .ok current_ast =>
        if _structures_match (_extract_code_structure original_ast) (_extract_code_structure current_ast) then
          ⟨true, "valid_docstring_only_changes", none, some (_compare_docstrings original_ast current_ast)⟩
        else
          ⟨false, "structure_changed", some "Function/class signatures, imports, or logic were modified", none⟩

end AstValidator

namespace GitModel

/-- Concrete oracle for a repository with a merge-base commit `aa` at
distance 3, a bot commit `bb` at distance 8, and a root commit `rr` at
distance 12. -/
def oracleBoth : GitOracle where
  logAuthor := fun _ => .ok "bb"
  mergeBase := fun _ => .ok "aa"
  revListBoundary := fun _ => .error ()
  revListRoot := .ok "rr"
  revListReverse := .error ()
  revParseHead := .ok "hh"
  countToHead := fun c =>
    if c == "aa" then .ok "3"
    else if c == "bb" then .ok "8"
    else if c == "rr" then .ok "12"
    else .error ()

/-- Concrete oracle where only the distance count for commit `a` fails. -/
def oracleCountFail : GitOracle where
  logAuthor := fun _ => .error ()
  mergeBase := fun _ => .error ()
  revListBoundary := fun _ => .error ()
  revListRoot := .error ()
  revListReverse := .error ()
  revParseHead := .error ()
  countToHead := fun c => if c == "b" then .ok "3" else .error ()

/-- A pull-request configuration targeting `main`. -/
def cfgPR : GitHubConfig := ⟨some EVENT_PULL_REQUEST, some "main"⟩

/-- A push configuration. -/
def cfgPush : GitHubConfig := ⟨some "push", none⟩

end GitModel

namespace AstValidator

/-- Concrete Python module: `class C: pass` followed by `def f(): pass`. -/
def mClassThenFunc : PyModule :=
  ⟨.cons (.classDef "C" [] (.cons .passStmt .nil) [])
    (.cons (.functionDef "f" [] (.cons .passStmt .nil) []) .nil)⟩

/-- The same module with a docstring added to both the class and the
function (a documentation-only change). -/
def mClassThenFuncDocs : PyModule :=
  ⟨.cons (.classDef "C" [] (.cons (strStmt "cdoc") (.cons .passStmt .nil)) [])
    (.cons (.functionDef "f" [] (.cons (strStmt "fdoc") (.cons .passStmt .nil)) []) .nil)⟩

/-- Concrete deterministic parser used for concrete inputs: a finite map
from source texts to their syntax trees, with one text that fails to
parse. -/
def witParse : String → ParseResult
  | "empty" => .ok ⟨.nil⟩
  | "bad" => .err "invalid syntax (<unknown>, line 1)"
  | "c2a1" => .ok ⟨(StmtList.cons .passStmt .nil) ++ (.cons (strStmt "one") .nil)⟩
  | "c2a2" => .ok ⟨(StmtList.cons .passStmt .nil) ++ (.cons (strStmt "two") .nil)⟩
  | "c2b1" => .ok ⟨.cons (.functionDef "f" [] ((StmtList.cons .passStmt .nil) ++ (.cons (strStmt "one") .nil)) []) .nil⟩
  | "c2b2" => .ok ⟨.cons (.functionDef "f" [] ((StmtList.cons .passStmt .nil) ++ (.cons (strStmt "two") .nil)) []) .nil⟩
  | "c2c1" => .ok ⟨.cons (strStmt "doc") (.cons (strStmt "one") .nil)⟩
  | "c2c2" => .ok ⟨.cons (strStmt "doc") (.cons (strStmt "two") .nil)⟩
  | "c2d1" => .ok ⟨.cons (.ifStmt (.name "x") (.cons (strStmt "one") .nil) .nil) .nil⟩
  | "c2d2" => .ok ⟨.cons (.ifStmt (.name "x") (.cons (strStmt "two") .nil) .nil) .nil⟩
  | "c9o" => .ok ⟨.cons (.functionDef "f" [] (.cons .passStmt .nil) []) .nil⟩
  | "c9c" => .ok ⟨.cons (.functionDef "f" [] (.cons (strStmt "") (.cons .passStmt .nil)) []) .nil⟩
  | "c7o" => .ok mClassThenFunc
  | "c7c" => .ok mClassThenFuncDocs
  | _ => .err "invalid syntax"

end AstValidator

/-- C1: in pull-request context with both a PR base commit and a last
automation commit found, `_determine_pr_range` picks the candidate with the
smaller `distance_to_head`, ties favoring the PR base; in push context with
a last automation commit found, `_determine_push_range` picks the smaller of
the oldest available commit and the automation commit, ties favoring the
oldest available; in both cases the selected candidate's distance is a
minimum of the two, so a candidate with strictly larger distance is never
selected. -/
theorem c1_smallest_window_selection :
    (∀ (o : GitModel.GitOracle) (cfg : GitModel.GitHubConfig) (pb lb : GitModel.CommitInfo),
      GitModel.find_pr_base_commit o cfg = .ok (some pb) →
      GitModel.find_last_bot_commit o = some lb →
      ∃ c : GitModel.CommitInfo, (c = pb ∨ c = lb) ∧
        GitModel._determine_pr_range o cfg = .ok ⟨c.sha, "HEAD"⟩ ∧
        c.distance_to_head ≤ pb.distance_to_head ∧ c.distance_to_head ≤ lb.distance_to_head ∧
        (pb.distance_to_head ≤ lb.distance_to_head → c = pb)) ∧
    (∀ (o : GitModel.GitOracle) (old lb : GitModel.CommitInfo),
      GitModel.find_oldest_available_commit o = .ok old →
      GitModel.find_last_bot_commit o = some lb →
      ∃ c : GitModel.CommitInfo, (c = old ∨ c = lb) ∧
        GitModel._determine_push_range o = .ok ⟨c.sha, "HEAD"⟩ ∧
        c.distance_to_head ≤ old.distance_to_head ∧ c.distance_to_head ≤ lb.distance_to_head ∧
        (old.distance_to_head ≤ lb.distance_to_head → c = old)) := by
  constructor
  · intro o cfg pb lb h1 h2
    by_cases hle : pb.distance_to_head ≤ lb.distance_to_head
    · refine ⟨pb, Or.inl rfl, ?_, le_refl _, hle, fun _ => rfl⟩
      simp [GitModel._determine_pr_range, h1, h2, hle]
    · refine ⟨lb, Or.inr rfl, ?_, le_of_not_le hle, le_refl _, fun h => absurd h hle⟩
      simp [GitModel._determine_pr_range, h1, h2, hle]
  · intro o old lb h1 h2
    by_cases hle : old.distance_to_head ≤ lb.distance_to_head
    · refine ⟨old, Or.inl rfl, ?_, le_refl _, hle, fun _ => rfl⟩
      simp [GitModel._determine_push_range, h1, h2, hle]
    · refine ⟨lb, Or.inr rfl, ?_, le_of_not_le hle, le_refl _, fun h => absurd h hle⟩
      simp [GitModel._determine_push_range, h1, h2, hle]

/-- Witness for C1 at a concrete repository state: PR base `aa` (distance 3)
vs bot commit `bb` (distance 8), and oldest `rr` (distance 12) vs bot `bb`
(distance 8). -/
theorem c1_smallest_window_selection_witness :
    (∃ c : GitModel.CommitInfo, (c = ⟨"aa", 3⟩ ∨ c = ⟨"bb", 8⟩) ∧
      GitModel._determine_pr_range GitModel.oracleBoth GitModel.cfgPR = .ok ⟨c.sha, "HEAD"⟩ ∧
      c.distance_to_head ≤ (3 : Int) ∧ c.distance_to_head ≤ (8 : Int) ∧
      ((3 : Int) ≤ (8 : Int) → c = ⟨"aa", 3⟩)) ∧
    (∃ c : GitModel.CommitInfo, (c = ⟨"rr", 12⟩ ∨ c = ⟨"bb", 8⟩) ∧
      GitModel._determine_push_range GitModel.oracleBoth = .ok ⟨c.sha, "HEAD"⟩ ∧
      c.distance_to_head ≤ (12 : Int) ∧ c.distance_to_head ≤ (8 : Int) ∧
      ((12 : Int) ≤ (8 : Int) → c = ⟨"rr", 12⟩)) :=
  ⟨c1_smallest_window_selection.1 GitModel.oracleBoth GitModel.cfgPR ⟨"aa", 3⟩ ⟨"bb", 8⟩
      (by decide) (by decide),
   c1_smallest_window_selection.2 GitModel.oracleBoth ⟨"rr", 12⟩ ⟨"bb", 8⟩
      (by decide) (by decide)⟩

/-- C3: commit-range resolution never raises across the public boundary:
whenever the underlying resolution propagates an error (in particular when
every git query fails, in both pull-request and push context),
`determine_diff_commits` returns the pair `("HEAD", "HEAD")` instead. -/
theorem c3_resolution_never_raises :
    (∀ (o : GitModel.GitOracle) (cfg : GitModel.GitHubConfig) (e : Unit),
      GitModel.determine_range o cfg = .error e →
      GitModel.determine_diff_commits o cfg = ("HEAD", "HEAD")) ∧
    (∀ cfg : GitModel.GitHubConfig,
      GitModel.determine_diff_commits GitModel.failAllOracle cfg = ("HEAD", "HEAD")) := by
  constructor
  · intro o cfg e h
    simp [GitModel.determine_diff_commits, h]
  · intro cfg
    have hbot : GitModel.find_last_bot_commit GitModel.failAllOracle = none := rfl
    have hprb : GitModel.find_pr_base_commit GitModel.failAllOracle cfg = .ok none ∨
        GitModel.find_pr_base_commit GitModel.failAllOracle cfg = .error () := by
      unfold GitModel.find_pr_base_commit
      split
      · exact Or.inl rfl
      · split
        · exact Or.inl rfl
        · split
          · exact Or.inl rfl
          · exact Or.inr rfl
    have hpr : GitModel._determine_pr_range GitModel.failAllOracle cfg = .error () := by
      rcases hprb with h | h
      · simp only [GitModel._determine_pr_range, h, hbot]
        rfl
      · simp only [GitModel._determine_pr_range, h]
    have hpush : GitModel._determine_push_range GitModel.failAllOracle = .error () := rfl
    unfold GitModel.determine_diff_commits GitModel.determine_range
    by_cases hc : cfg.is_pull_request
    · simp [hc, hpr]
    · simp [hc, hpush]

/-- Witness for C3: with every query failing, both a push configuration and
a pull-request configuration resolve to the no-diff pair. -/
theorem c3_resolution_never_raises_witness :
    GitModel.determine_range GitModel.failAllOracle GitModel.cfgPush = .error () ∧
    GitModel.determine_diff_commits GitModel.failAllOracle GitModel.cfgPush = ("HEAD", "HEAD") ∧
    GitModel.determine_diff_commits GitModel.failAllOracle GitModel.cfgPR = ("HEAD", "HEAD") :=
  ⟨by decide,
   c3_resolution_never_raises.1 GitModel.failAllOracle GitModel.cfgPush () (by decide),
   c3_resolution_never_raises.2 GitModel.cfgPR⟩

/-- C8: when the `git rev-list --count` query for a commit fails,
`_count_commits_to_head` returns the large sentinel instead of erroring, and
that commit then has a strictly larger distance than any commit whose count
was successfully parsed (every realistic count lies below the sentinel), so
it loses every smaller-distance comparison against such a commit. -/
theorem c8_failed_count_gets_sentinel :
    (∀ (o : GitModel.GitOracle) (sha : String),
      o.countToHead sha = .error () →
      GitModel._count_commits_to_head o sha = GitModel.LARGE_COMMIT_COUNT_FALLBACK) ∧
    (∀ (o : GitModel.GitOracle) (shaA shaB out : String) (d : Int),
      o.countToHead shaA = .error () →
      o.countToHead shaB = .ok out →
      pyInt? (pyStrip out) = some d →
      d < GitModel.LARGE_COMMIT_COUNT_FALLBACK →
      GitModel._count_commits_to_head o shaB < GitModel._count_commits_to_head o shaA) := by
  constructor
  · intro o sha h
    simp [GitModel._count_commits_to_head, h]
  · intro o shaA shaB out d hA hB hParse hd
    simp only [GitModel._count_commits_to_head, hA, hB, hParse]
    exact hd

/-- Witness for C8: the count query for commit `a` fails while commit `b`
counts to 3; `a` gets the sentinel and loses the distance comparison. -/
theorem c8_failed_count_gets_sentinel_witness :
    GitModel._count_commits_to_head GitModel.oracleCountFail "a" = GitModel.LARGE_COMMIT_COUNT_FALLBACK ∧
    GitModel._count_commits_to_head GitModel.oracleCountFail "b" < GitModel._count_commits_to_head GitModel.oracleCountFail "a" :=
  ⟨c8_failed_count_gets_sentinel.1 GitModel.oracleCountFail "a" rfl,
   c8_failed_count_gets_sentinel.2 GitModel.oracleCountFail "a" "b" "3" 3 rfl rfl (by decide) (by decide)⟩

namespace AstValidator

/-- No docstring change is reported when a tree is compared with itself. -/
theorem compare_docstrings_self (m : PyModule) : _compare_docstrings m m = [] := by
  unfold _compare_docstrings
  simp [List.filterMap_eq_nil_iff]

/-- Shape of every passing validation: the read succeeded, both sides
parsed, the stripped structures matched, and the outcome carries the
docstring comparison of the two trees. -/
theorem validate_passing_shape (parseFn : String → ParseResult) (oc : String)
    (rr : Except String String) (hp : (validate_changes parseFn oc rr).passed = true) :
    ∃ (cur : String) (m₁ m₂ : PyModule),
      rr = .ok cur ∧ parseFn oc = .ok m₁ ∧ parseFn cur = .ok m₂ ∧
      validate_changes parseFn oc rr =
        ⟨true, "valid_docstring_only_changes", none, some (_compare_docstrings m₁ m₂)⟩ := by
  rcases rr with e | cur
  · exact absurd hp (by simp [validate_changes])
  · rcases h₁ : parseFn oc with m₁ | e
    · rcases h₂ : parseFn cur with m₂ | e
      · by_cases hs : _structures_match (_extract_code_structure m₁) (_extract_code_structure m₂) = true
        · exact ⟨cur, m₁, m₂, rfl, rfl, h₂, by simp [validate_changes, h₁, h₂, hs]⟩
        · rw [Bool.not_eq_true] at hs
          exact absurd hp (by simp [validate_changes, h₁, h₂, hs])
      · exact absurd hp (by simp [validate_changes, h₁, h₂])
    · exact absurd hp (by simp [validate_changes, h₁])

/-- A structural mismatch of the stripped trees yields the
`structure_changed` failure outcome. -/
theorem validate_structure_changed_of_ne (parseFn : String → ParseResult)
    (oc cur : String) (m₁ m₂ : PyModule)
    (h₁ : parseFn oc = .ok m₁) (h₂ : parseFn cur = .ok m₂)
    (hne : _extract_code_structure m₁ ≠ _extract_code_structure m₂) :
    validate_changes parseFn oc (.ok cur) =
      ⟨false, "structure_changed", some "Function/class signatures, imports, or logic were modified", none⟩ := by
  have hb : (_extract_code_structure m₁ == _extract_code_structure m₂) = false :=
    beq_eq_false_iff_ne.mpr hne
  simp [validate_changes, h₁, h₂, _structures_match, hb]

end AstValidator

/-- C4: validating any syntactically valid source text against an unchanged
copy of itself passes, with the passing status (the source's literal status
string for the spec's `valid`) and an empty docstring-change list. -/
theorem c4_validation_idempotent (parseFn : String → AstValidator.ParseResult)
    (X : String) (m : AstValidator.PyModule) (h : parseFn X = .ok m) :
    AstValidator.validate_changes parseFn X (.ok X) =
      ⟨true, "valid_docstring_only_changes", none, some []⟩ := by
  simp [AstValidator.validate_changes, h, AstValidator._structures_match,
    AstValidator.compare_docstrings_self]

/-- Witness for C4 at the concrete empty module. -/
theorem c4_validation_idempotent_witness :
    AstValidator.validate_changes AstValidator.witParse "empty" (.ok "empty") =
      ⟨true, "valid_docstring_only_changes", none, some []⟩ :=
  c4_validation_idempotent AstValidator.witParse "empty" ⟨.nil⟩ rfl

/-- C6: when parsing the original text fails, or when it succeeds and
parsing the current file content fails, `validate_changes` returns the
`syntax_error` failure with the parser's message embedded in the reason,
without raising and without re-invoking the parser on that text. -/
theorem c6_parse_failure_is_syntax_error :
    (∀ (parseFn : String → AstValidator.ParseResult) (oc cur e : String),
      parseFn oc = .err e →
      AstValidator.validate_changes parseFn oc (.ok cur) =
        ⟨false, "syntax_error", some ("Modified file has syntax errors: " ++ e), none⟩) ∧
    (∀ (parseFn : String → AstValidator.ParseResult) (oc cur e : String)
        (m : AstValidator.PyModule),
      parseFn oc = .ok m → parseFn cur = .err e →
      AstValidator.validate_changes parseFn oc (.ok cur) =
        ⟨false, "syntax_error", some ("Modified file has syntax errors: " ++ e), none⟩) := by
  constructor
  · intro parseFn oc cur e h
    simp [AstValidator.validate_changes, h]
  · intro parseFn oc cur e m h₁ h₂
    simp [AstValidator.validate_changes, h₁, h₂]

/-- Witness for C6: a text that fails to parse, on either side. -/
theorem c6_parse_failure_is_syntax_error_witness :
    AstValidator.validate_changes AstValidator.witParse "bad" (.ok "empty") =
      ⟨false, "syntax_error",
        some ("Modified file has syntax errors: " ++ "invalid syntax (<unknown>, line 1)"), none⟩ ∧
    AstValidator.validate_changes AstValidator.witParse "empty" (.ok "bad") =
      ⟨false, "syntax_error",
        some ("Modified file has syntax errors: " ++ "invalid syntax (<unknown>, line 1)"), none⟩ :=
  ⟨c6_parse_failure_is_syntax_error.1 AstValidator.witParse "bad" "empty"
      "invalid syntax (<unknown>, line 1)" rfl,
   c6_parse_failure_is_syntax_error.2 AstValidator.witParse "empty" "bad"
      "invalid syntax (<unknown>, line 1)" ⟨.nil⟩ rfl rfl⟩

/-- C5: the status of every validation outcome is one of exactly four
values — the passing status (the spec's `valid`), `structure_changed`,
`syntax_error` and `validation_error` — and each of the four is attained. -/
theorem c5_status_one_of_four :
    (∀ (parseFn : String → AstValidator.ParseResult) (oc : String)
        (rr : Except String String),
      (AstValidator.validate_changes parseFn oc rr).status = "valid_docstring_only_changes" ∨
      (AstValidator.validate_changes parseFn oc rr).status = "structure_changed" ∨
      (AstValidator.validate_changes parseFn oc rr).status = "syntax_error" ∨
      (AstValidator.validate_changes parseFn oc rr).status = "validation_error") ∧
    (AstValidator.validate_changes AstValidator.witParse "empty" (.ok "empty")).status =
      "valid_docstring_only_changes" ∧
    (AstValidator.validate_changes AstValidator.witParse "c2a1" (.ok "c2a2")).status =
      "structure_changed" ∧
    (AstValidator.validate_changes AstValidator.witParse "bad" (.ok "empty")).status =
      "syntax_error" ∧
    (AstValidator.validate_changes AstValidator.witParse "empty" (.error "disk gone")).status =
      "validation_error" := by
  refine ⟨?_, by decide, by decide, by decide, by decide⟩
  intro parseFn oc rr
  rcases rr with e | cur
  · simp [AstValidator.validate_changes]
  · rcases h₁ : parseFn oc with m₁ | e
    · rcases h₂ : parseFn cur with m₂ | e
      · by_cases hs : AstValidator._structures_match
            (AstValidator._extract_code_structure m₁) (AstValidator._extract_code_structure m₂) = true
        · simp [AstValidator.validate_changes, h₁, h₂, hs]
        · rw [Bool.not_eq_true] at hs
          simp [AstValidator.validate_changes, h₁, h₂, hs]
      · simp [AstValidator.validate_changes, h₁, h₂]
    · simp [AstValidator.validate_changes, h₁]

/-- C10: in every validation outcome, `passed` is `true` exactly when the
status is the passing status, and the `docstring_changes` field carries a
list exactly when `passed` is `true` (it is `None` in every failing
outcome). -/
theorem c10_passed_iff_passing_status :
    ∀ (parseFn : String → AstValidator.ParseResult) (oc : String)
      (rr : Except String String),
      ((AstValidator.validate_changes parseFn oc rr).passed = true ↔
        (AstValidator.validate_changes parseFn oc rr).status = "valid_docstring_only_changes") ∧
      ((AstValidator.validate_changes parseFn oc rr).passed = true ↔
        ∃ l, (AstValidator.validate_changes parseFn oc rr).docstring_changes = some l) := by
  intro parseFn oc rr
  rcases rr with e | cur
  · simp [AstValidator.validate_changes]
  · rcases h₁ : parseFn oc with m₁ | e
    · rcases h₂ : parseFn cur with m₂ | e
      · by_cases hs : AstValidator._structures_match
            (AstValidator._extract_code_structure m₁) (AstValidator._extract_code_structure m₂) = true
        · simp [AstValidator.validate_changes, h₁, h₂, hs]
        · rw [Bool.not_eq_true] at hs
          simp [AstValidator.validate_changes, h₁, h₂, hs]
      · simp [AstValidator.validate_changes, h₁, h₂]
    · simp [AstValidator.validate_changes, h₁]

namespace AstValidator

/-- The docstring-change list is always built as (at most one) module entry,
then the function entries, then the class entries. -/
theorem compare_docstrings_grouped (o c : PyModule) :
    ∃ l₁ l₂ l₃ : List DocChange,
      _compare_docstrings o c = l₁ ++ l₂ ++ l₃ ∧
      l₁.length ≤ 1 ∧
      (∀ ch ∈ l₁, ch.type = "module") ∧
      (∀ ch ∈ l₂, ch.type = "function") ∧
      (∀ ch ∈ l₃, ch.type = "class") := by
  refine ⟨_, _, _, rfl, ?_, ?_, ?_, ?_⟩
  · split <;> simp
  · split
    · intro ch hch
      rw [List.mem_singleton] at hch
      rw [hch]
    · intro ch hch
      exact absurd hch (List.not_mem_nil ch)
  · intro ch hch
    rw [List.mem_filterMap] at hch
    obtain ⟨n, -, hn⟩ := hch
    dsimp only at hn
    split at hn
    · rw [← Option.some.inj hn]
    · exact Option.noConfusion hn
  · intro ch hch
    rw [List.mem_filterMap] at hch
    obtain ⟨n, -, hn⟩ := hch
    dsimp only at hn
    split at hn
    · rw [← Option.some.inj hn]
    · exact Option.noConfusion hn

end AstValidator

/-- C7 (amended): for every passing validation the docstring-change list is
the module-scope change (if any) first, followed by the changed function
scopes, then the changed class scopes; within the function and class groups
the order is the implementation's name-set iteration order, not the syntax
tree's traversal order. -/
theorem c7_doc_changes_grouped :
    ∀ (parseFn : String → AstValidator.ParseResult) (oc : String)
      (rr : Except String String),
      (AstValidator.validate_changes parseFn oc rr).passed = true →
      ∃ l₁ l₂ l₃ : List AstValidator.DocChange,
        (AstValidator.validate_changes parseFn oc rr).docstring_changes =
          some (l₁ ++ l₂ ++ l₃) ∧
        l₁.length ≤ 1 ∧
        (∀ ch ∈ l₁, ch.type = "module") ∧
        (∀ ch ∈ l₂, ch.type = "function") ∧
        (∀ ch ∈ l₃, ch.type = "class") := by
  intro parseFn oc rr hp
  obtain ⟨cur, m₁, m₂, hrr, h₁, h₂, heq⟩ :=
    AstValidator.validate_passing_shape parseFn oc rr hp
  obtain ⟨l₁, l₂, l₃, hcmp, hlen, hm, hf, hc⟩ :=
    AstValidator.compare_docstrings_grouped m₁ m₂
  exact ⟨l₁, l₂, l₃, by rw [heq]; exact congrArg some hcmp, hlen, hm, hf, hc⟩

/-- Witness for C7 as amended, at a concrete passing validation. -/
theorem c7_doc_changes_grouped_witness :
    ∃ l₁ l₂ l₃ : List AstValidator.DocChange,
      (AstValidator.validate_changes AstValidator.witParse "c7o" (.ok "c7c")).docstring_changes =
        some (l₁ ++ l₂ ++ l₃) ∧
      l₁.length ≤ 1 ∧
      (∀ ch ∈ l₁, ch.type = "module") ∧
      (∀ ch ∈ l₂, ch.type = "function") ∧
      (∀ ch ∈ l₃, ch.type = "class") :=
  c7_doc_changes_grouped AstValidator.witParse "c7o" (.ok "c7c") (by decide)

/-- Counterexample to C7 as stated: in `mClassThenFunc` the class `C` is the
first statement of the module and the function `f` the second, so syntax-tree
traversal order would list the `C` change before the `f` change; the
validator instead reports the function change first and the class change
second, because all function scopes are compared before any class scope. -/
theorem c7_traversal_order_counterexample :
    AstValidator.validate_changes AstValidator.witParse "c7o" (.ok "c7c") =
      ⟨true, "valid_docstring_only_changes", none,
        some [⟨"function", "f", none, some "fdoc"⟩, ⟨"class", "C", none, some "cdoc"⟩]⟩ ∧
    AstValidator.mClassThenFunc.body =
      .cons (.classDef "C" [] (.cons .passStmt .nil) [])
        (.cons (.functionDef "f" [] (.cons .passStmt .nil) []) .nil) ∧
    ([⟨"function", "f", none, some "fdoc"⟩, ⟨"class", "C", none, some "cdoc"⟩] :
        List AstValidator.DocChange) ≠
      [⟨"class", "C", none, some "cdoc"⟩, ⟨"function", "f", none, some "fdoc"⟩] :=
  ⟨by decide, rfl, by decide⟩

namespace AstValidator

/-- Flattening the level merge of a single leaf node with any level list
puts the leaf first. -/
theorem flatten_mergeLevels_single (s : Stmt) (L : List (List Stmt)) :
    (mergeLevels [[s]] L).flatten = s :: L.flatten := by
  cases L with
  | nil => rfl
  | cons l ls => simp [mergeLevels]

/-- A scope body whose first statement is not a string literal loses
nothing when processed as a scope body. -/
theorem stripScopeBody_of_no_doc (b : StmtList) (h : bodyDocstring b = none) :
    stripScopeBody b = stripList b := by
  cases b with
  | nil => rfl
  | cons s t =>
    have hd : docstringOfStmt s = none := h
    simp [stripScopeBody, isDocExpr, hd, stripList]

/-- Core computation for the absent-versus-empty docstring scenario: a
single function `n` whose body gains a leading empty-string docstring.  The
stripped structures agree, and the comparison reports exactly the one
function change between `None` and the empty string, in both directions. -/
theorem compare_c9 (n : String) (a : List String) (d : List Expr) (rest : StmtList)
    (h₀ : bodyDocstring rest = none)
    (h₁ : ((bodyLevels rest).flatten.filter
      (fun s => isFunctionNode s || isClassNode s)) = []) :
    _compare_docstrings ⟨.cons (.functionDef n a rest d) .nil⟩
        ⟨.cons (.functionDef n a (.cons (strStmt "") rest) d) .nil⟩ =
      [⟨"function", n, none, some ""⟩] ∧
    _compare_docstrings ⟨.cons (.functionDef n a (.cons (strStmt "") rest) d) .nil⟩
        ⟨.cons (.functionDef n a rest d) .nil⟩ =
      [⟨"function", n, some "", none⟩] ∧
    _extract_code_structure ⟨.cons (.functionDef n a rest d) .nil⟩ =
      _extract_code_structure ⟨.cons (.functionDef n a (.cons (strStmt "") rest) d) .nil⟩ := by
  have hnof : ∀ s ∈ (bodyLevels rest).flatten, isFunctionNode s = false := by
    intro s hs
    have := List.filter_eq_nil_iff.mp h₁ s hs
    simp only [Bool.or_eq_true, not_or, Bool.not_eq_true] at this
    exact this.1
  have hnoc : ∀ s ∈ (bodyLevels rest).flatten, isClassNode s = false := by
    intro s hs
    have := List.filter_eq_nil_iff.mp h₁ s hs
    simp only [Bool.or_eq_true, not_or, Bool.not_eq_true] at this
    exact this.2
  have hfo : (bodyLevels rest).flatten.filter isFunctionNode = [] :=
    List.filter_eq_nil_iff.mpr (fun s hs => by rw [hnof s hs]; exact Bool.false_ne_true)
  have hco : (bodyLevels rest).flatten.filter isClassNode = [] :=
    List.filter_eq_nil_iff.mpr (fun s hs => by rw [hnoc s hs]; exact Bool.false_ne_true)
  have hwalk₁ : walkStmts ⟨.cons (.functionDef n a rest d) .nil⟩ =
      .functionDef n a rest d :: (bodyLevels rest).flatten := by
    simp [walkStmts, bodyLevels, stmtLevels, mergeLevels]
  have hwalk₂ : walkStmts ⟨.cons (.functionDef n a (.cons (strStmt "") rest) d) .nil⟩ =
      .functionDef n a (.cons (strStmt "") rest) d :: strStmt "" :: (bodyLevels rest).flatten := by
    simp [walkStmts, bodyLevels, stmtLevels, mergeLevels, strStmt, flatten_mergeLevels_single]
  have hf₁ : (walkStmts ⟨.cons (.functionDef n a rest d) .nil⟩).filter isFunctionNode =
      [.functionDef n a rest d] := by
    rw [hwalk₁]
    simp [List.filter_cons, isFunctionNode, hfo]
  have hf₂ : (walkStmts ⟨.cons (.functionDef n a (.cons (strStmt "") rest) d) .nil⟩).filter
      isFunctionNode = [.functionDef n a (.cons (strStmt "") rest) d] := by
    rw [hwalk₂]
    simp [List.filter_cons, isFunctionNode, strStmt, hfo]
  have hc₁ : (walkStmts ⟨.cons (.functionDef n a rest d) .nil⟩).filter isClassNode = [] := by
    rw [hwalk₁]
    simp [List.filter_cons, isClassNode, hco]
  have hc₂ : (walkStmts ⟨.cons (.functionDef n a (.cons (strStmt "") rest) d) .nil⟩).filter
      isClassNode = [] := by
    rw [hwalk₂]
    simp [List.filter_cons, isClassNode, strStmt, hco]
  have hg₁ : _get_docstring (some (.functionDef n a rest d)) = none := by
    simpa [_get_docstring, nodeBody] using h₀
  have hg₂ : _get_docstring (some (.functionDef n a (.cons (strStmt "") rest) d)) = some "" := rfl
  refine ⟨?_, ?_, ?_⟩
  · unfold _compare_docstrings
    rw [hf₁, hf₂, hc₁, hc₂]
    simp [moduleDocstring, bodyDocstring, docstringOfStmt, buildDict, dictUpsert, defName,
      dictKeys, keyUnion, dictGet, hg₁, hg₂, List.filterMap_cons, List.filterMap_nil]
  · unfold _compare_docstrings
    rw [hf₁, hf₂, hc₁, hc₂]
    simp [moduleDocstring, bodyDocstring, docstringOfStmt, buildDict, dictUpsert, defName,
      dictKeys, keyUnion, dictGet, hg₁, hg₂, List.filterMap_cons, List.filterMap_nil]
  · have hstrip := stripScopeBody_of_no_doc rest h₀
    simp [_extract_code_structure, stripScopeBody, stripStmt, isDocExpr, docstringOfStmt,
      strStmt, stripList, hstrip]

end AstValidator

/-- C9: when a function's leading documentation string is absent in one
version and is the empty string in the other (with the rest of the body
unchanged and containing no nested definitions), the structural fingerprints
match, the validation passes, and the difference is reported as a DocChange
whose sides are `None` and the empty string — distinct values — in either
direction of the change. -/
theorem c9_absent_vs_empty_docstring :
    ∀ (parseFn : String → AstValidator.ParseResult) (X₁ X₂ n : String)
      (a : List String) (d : List AstValidator.Expr) (rest : AstValidator.StmtList),
      AstValidator.bodyDocstring rest = none →
      ((AstValidator.bodyLevels rest).flatten.filter
        (fun s => AstValidator.isFunctionNode s || AstValidator.isClassNode s)) = [] →
      parseFn X₁ = .ok ⟨.cons (.functionDef n a rest d) .nil⟩ →
      parseFn X₂ = .ok ⟨.cons (.functionDef n a (.cons (AstValidator.strStmt "") rest) d) .nil⟩ →
      AstValidator.validate_changes parseFn X₁ (.ok X₂) =
        ⟨true, "valid_docstring_only_changes", none, some [⟨"function", n, none, some ""⟩]⟩ ∧
      AstValidator.validate_changes parseFn X₂ (.ok X₁) =
        ⟨true, "valid_docstring_only_changes", none, some [⟨"function", n, some "", none⟩]⟩ := by
  intro parseFn X₁ X₂ n a d rest h₀ h₁ hp₁ hp₂
  obtain ⟨hcmp₁, hcmp₂, hext⟩ := AstValidator.compare_c9 n a d rest h₀ h₁
  constructor
  · have hmatch : AstValidator._structures_match
        (AstValidator._extract_code_structure ⟨.cons (.functionDef n a rest d) .nil⟩)
        (AstValidator._extract_code_structure
          ⟨.cons (.functionDef n a (.cons (AstValidator.strStmt "") rest) d) .nil⟩) = true := by
      simp [AstValidator._structures_match, hext]
    simp [AstValidator.validate_changes, hp₁, hp₂, hmatch, hcmp₁]
  · have hmatch : AstValidator._structures_match
        (AstValidator._extract_code_structure
          ⟨.cons (.functionDef n a (.cons (AstValidator.strStmt "") rest) d) .nil⟩)
        (AstValidator._extract_code_structure ⟨.cons (.functionDef n a rest d) .nil⟩) = true := by
      simp [AstValidator._structures_match, hext]
    simp [AstValidator.validate_changes, hp₁, hp₂, hmatch, hcmp₂]

/-- Witness for C9: `def f(): pass` against `def f(): ""; pass`. -/
theorem c9_absent_vs_empty_docstring_witness :
    AstValidator.validate_changes AstValidator.witParse "c9o" (.ok "c9c") =
      ⟨true, "valid_docstring_only_changes", none,
        some [⟨"function", "f", none, some ""⟩]⟩ ∧
    AstValidator.validate_changes AstValidator.witParse "c9c" (.ok "c9o") =
      ⟨true, "valid_docstring_only_changes", none,
        some [⟨"function", "f", some "", none⟩]⟩ :=
  c9_absent_vs_empty_docstring AstValidator.witParse "c9o" "c9c" "f" [] []
    (.cons .passStmt .nil) (by decide) (by decide) rfl rfl

namespace AstValidator

/-- Unfolding of statement-sequence concatenation on a cons cell. -/
theorem StmtList.cons_append (s : Stmt) (t b : StmtList) :
    (StmtList.cons s t) ++ b = .cons s (t ++ b) := rfl

/-- Left cancellation for statement-sequence concatenation. -/
theorem StmtList.append_cancel_left :
    ∀ (a b c : StmtList), a ++ b = a ++ c → b = c
  | .nil, _, _, h => h
  | .cons s t, b, c, h => by
    rw [StmtList.cons_append, StmtList.cons_append] at h
    injection h with h₁ h₂
    exact StmtList.append_cancel_left t b c h₂

/-- Non-scope recursive processing distributes over concatenation. -/
theorem stripList_append :
    ∀ (a b : StmtList), stripList (a ++ b) = stripList a ++ stripList b
  | .nil, b => rfl
  | .cons s t, b => by
    rw [StmtList.cons_append, stripList, stripList, StmtList.cons_append,
      stripList_append t b]

/-- A string-literal statement at a non-stripped position survives
`stripList` in place, so two sequences that differ only in such a literal
have different images. -/
theorem stripList_mid_inj (pre suf : StmtList) (s₁ s₂ : String)
    (h : stripList (pre ++ .cons (strStmt s₁) suf) =
      stripList (pre ++ .cons (strStmt s₂) suf)) : s₁ = s₂ := by
  rw [stripList_append, stripList_append] at h
  have h₂ := StmtList.append_cancel_left (stripList pre) _ _ h
  rw [stripList, stripList] at h₂
  injection h₂ with h₃ h₄
  simpa [strStmt, stripStmt] using h₃

/-- A scope body keeps every statement after the first, so two scope bodies
with the same head that differ only in a later string literal have
different scope-stripped images. -/
theorem stripScopeBody_mid_inj (p : Stmt) (pre suf : StmtList) (s₁ s₂ : String)
    (h : stripScopeBody (.cons p (pre ++ .cons (strStmt s₁) suf)) =
      stripScopeBody (.cons p (pre ++ .cons (strStmt s₂) suf))) : s₁ = s₂ := by
  by_cases hd : isDocExpr p = true
  · rw [stripScopeBody, stripScopeBody, if_pos hd, if_pos hd] at h
    exact stripList_mid_inj pre suf s₁ s₂ h
  · rw [stripScopeBody, stripScopeBody, if_neg hd, if_neg hd] at h
    injection h with h₁ h₂
    exact stripList_mid_inj pre suf s₁ s₂ h₂

end AstValidator

/-- C2: a string literal is exempt from structural comparison only as the
first statement of a scope body; in every other position it is compared as
an ordinary statement, so two files that differ in such a literal fail with
`structure_changed`.  Four families cover the claim's positions: (a) a
non-first statement of the module scope, after an arbitrary non-empty
prefix; (b) a non-first statement of a function scope; (c) a second string
literal directly after a (possibly also differing) module docstring; (d) the
sole content of an `if` body, a non-scope block. -/
theorem c2_string_literal_position_sensitivity :
    (∀ (parseFn : String → AstValidator.ParseResult) (X₁ X₂ s₁ s₂ : String)
        (p : AstValidator.Stmt) (pre suf : AstValidator.StmtList),
      s₁ ≠ s₂ →
      parseFn X₁ = .ok ⟨(.cons p pre) ++ .cons (AstValidator.strStmt s₁) suf⟩ →
      parseFn X₂ = .ok ⟨(.cons p pre) ++ .cons (AstValidator.strStmt s₂) suf⟩ →
      AstValidator.validate_changes parseFn X₁ (.ok X₂) =
        ⟨false, "structure_changed",
          some "Function/class signatures, imports, or logic were modified", none⟩) ∧
    (∀ (parseFn : String → AstValidator.ParseResult) (X₁ X₂ s₁ s₂ f : String)
        (args : List String) (dec : List AstValidator.Expr)
        (p : AstValidator.Stmt) (pre suf : AstValidator.StmtList),
      s₁ ≠ s₂ →
      parseFn X₁ = .ok ⟨.cons
        (.functionDef f args ((.cons p pre) ++ .cons (AstValidator.strStmt s₁) suf) dec) .nil⟩ →
      parseFn X₂ = .ok ⟨.cons
        (.functionDef f args ((.cons p pre) ++ .cons (AstValidator.strStmt s₂) suf) dec) .nil⟩ →
      AstValidator.validate_changes parseFn X₁ (.ok X₂) =
        ⟨false, "structure_changed",
          some "Function/class signatures, imports, or logic were modified", none⟩) ∧
    (∀ (parseFn : String → AstValidator.ParseResult) (X₁ X₂ d₁ d₂ s₁ s₂ : String)
        (suf : AstValidator.StmtList),
      s₁ ≠ s₂ →
      parseFn X₁ = .ok ⟨.cons (AstValidator.strStmt d₁) (.cons (AstValidator.strStmt s₁) suf)⟩ →
      parseFn X₂ = .ok ⟨.cons (AstValidator.strStmt d₂) (.cons (AstValidator.strStmt s₂) suf)⟩ →
      AstValidator.validate_changes parseFn X₁ (.ok X₂) =
        ⟨false, "structure_changed",
          some "Function/class signatures, imports, or logic were modified", none⟩) ∧
    (∀ (parseFn : String → AstValidator.ParseResult) (X₁ X₂ s₁ s₂ : String)
        (t : AstValidator.Expr) (bt e : AstValidator.StmtList),
      s₁ ≠ s₂ →
      parseFn X₁ = .ok ⟨.cons (.ifStmt t (.cons (AstValidator.strStmt s₁) bt) e) .nil⟩ →
      parseFn X₂ = .ok ⟨.cons (.ifStmt t (.cons (AstValidator.strStmt s₂) bt) e) .nil⟩ →
      AstValidator.validate_changes parseFn X₁ (.ok X₂) =
        ⟨false, "structure_changed",
          some "Function/class signatures, imports, or logic were modified", none⟩) := by
  refine ⟨?_, ?_, ?_, ?_⟩
  · intro parseFn X₁ X₂ s₁ s₂ p pre suf hne hp₁ hp₂
    refine AstValidator.validate_structure_changed_of_ne parseFn X₁ X₂ _ _ hp₁ hp₂ ?_
    intro h
    apply hne
    apply AstValidator.stripScopeBody_mid_inj p pre suf s₁ s₂
    have hb := congrArg AstValidator.PyModule.body h
    simpa [AstValidator._extract_code_structure, AstValidator.StmtList.cons_append] using hb
  · intro parseFn X₁ X₂ s₁ s₂ f args dec p pre suf hne hp₁ hp₂
    refine AstValidator.validate_structure_changed_of_ne parseFn X₁ X₂ _ _ hp₁ hp₂ ?_
    intro h
    apply hne
    apply AstValidator.stripScopeBody_mid_inj p pre suf s₁ s₂
    have hb := congrArg AstValidator.PyModule.body h
    simpa [AstValidator._extract_code_structure, AstValidator.StmtList.cons_append,
      AstValidator.stripScopeBody, AstValidator.isDocExpr, AstValidator.docstringOfStmt,
      AstValidator.stripStmt, AstValidator.stripList] using hb
  · intro parseFn X₁ X₂ d₁ d₂ s₁ s₂ suf hne hp₁ hp₂
    refine AstValidator.validate_structure_changed_of_ne parseFn X₁ X₂ _ _ hp₁ hp₂ ?_
    intro h
    apply hne
    have hb := congrArg AstValidator.PyModule.body h
    simpa [AstValidator._extract_code_structure, AstValidator.stripScopeBody,
      AstValidator.isDocExpr, AstValidator.docstringOfStmt, AstValidator.strStmt,
      AstValidator.stripStmt, AstValidator.stripList] using hb
  · intro parseFn X₁ X₂ s₁ s₂ t bt e hne hp₁ hp₂
    refine AstValidator.validate_structure_changed_of_ne parseFn X₁ X₂ _ _ hp₁ hp₂ ?_
    intro h
    apply hne
    have hb := congrArg AstValidator.PyModule.body h
    simpa [AstValidator._extract_code_structure, AstValidator.stripScopeBody,
      AstValidator.isDocExpr, AstValidator.docstringOfStmt, AstValidator.strStmt,
      AstValidator.stripStmt, AstValidator.stripList] using hb

/-- Witness for C2: each of the four families at a concrete pair of files
differing in one string literal, `"one"` versus `"two"`. -/
theorem c2_string_literal_position_sensitivity_witness :
    AstValidator.validate_changes AstValidator.witParse "c2a1" (.ok "c2a2") =
      ⟨false, "structure_changed",
        some "Function/class signatures, imports, or logic were modified", none⟩ ∧
    AstValidator.validate_changes AstValidator.witParse "c2b1" (.ok "c2b2") =
      ⟨false, "structure_changed",
        some "Function/class signatures, imports, or logic were modified", none⟩ ∧
    AstValidator.validate_changes AstValidator.witParse "c2c1" (.ok "c2c2") =
      ⟨false, "structure_changed",
        some "Function/class signatures, imports, or logic were modified", none⟩ ∧
    AstValidator.validate_changes AstValidator.witParse "c2d1" (.ok "c2d2") =
      ⟨false, "structure_changed",
        some "Function/class signatures, imports, or logic were modified", none⟩ :=
  ⟨c2_string_literal_position_sensitivity.1 AstValidator.witParse "c2a1" "c2a2" "one" "two"
      .passStmt .nil .nil (by decide) rfl rfl,
   c2_string_literal_position_sensitivity.2.1 AstValidator.witParse "c2b1" "c2b2" "one" "two"
      "f" [] [] .passStmt .nil .nil (by decide) rfl rfl,
   c2_string_literal_position_sensitivity.2.2.1 AstValidator.witParse "c2c1" "c2c2" "doc" "doc"
      "one" "two" .nil (by decide) rfl rfl,
   c2_string_literal_position_sensitivity.2.2.2 AstValidator.witParse "c2d1" "c2d2" "one" "two"
      (.name "x") .nil .nil (by decide) rfl rfl⟩
